import Mathlib

/-!
Verification of the ADAS perception-and-warning pipeline
(`src/backend/adas/collision_warning.py`, `distance_estimator.py`,
`lane_keeping.py`, and `src/backend/depth_adas_service.py`).

Shallow embedding conventions:
* Python floats are modelled by `ℚ`; `float('inf')` sentinels are modelled
  with `WithTop ℚ` (`⊤` is `+infinity`).
* Python dict-shaped detections are modelled by a record holding the fields
  the algorithm reads (`object_id`, `object_class`, `distance`, `bbox`,
  `confidence`), i.e. a well-formed detection after the `obj.get` defaulting.
* The mutable `CollisionWarning` object is split into its per-call inputs and
  the mutable state (`ego_velocity`, thresholds, `object_history`); methods
  become pure functions returning the updated state.
* `threats.sort(key=lambda t: (t.ttc, t.distance))` is modelled by
  `List.insertionSort` with the lexicographic key order `threatLe`
  (a stable sort, like Python's).
* `max(t.warning_level for t in threats)` compares plain `enum.Enum`
  members, which Python cannot order: with a single threat `max` returns
  it without comparing, with two or more it raises `TypeError`.
  `buildState` and `analyze` therefore return `Except String WarningState`
  (`.error` models the raised exception).
* String presentation (float formatting such as `f"{x:.1f}"`, `.title()`,
  emoji) is not numerically modelled: `generate_warning_message` keeps the
  branching structure of the source but emits the base message and target
  label only.
-/

namespace ADAS

/-- Warning severity levels (`WarningLevel` enum, collision_warning.py). -/
inductive WarningLevel
  | NONE
  | INFO
  | WARNING
  | DANGER
  | CRITICAL
deriving DecidableEq, Fintype

/-- Integer value of a `WarningLevel`, as in the Python enum. -/
def WarningLevel.value : WarningLevel → ℕ
  | .NONE => 0
  | .INFO => 1
  | .WARNING => 2
  | .DANGER => 3
  | .CRITICAL => 4

/-- Types of collision warnings (`WarningType` enum, collision_warning.py). -/
inductive WarningType
  | FORWARD_COLLISION
  | PEDESTRIAN
  | CYCLIST
  | SIDE_COLLISION
  | REAR_COLLISION
  | LANE_DEPARTURE
deriving DecidableEq, Fintype

/-- A potential collision threat (`CollisionThreat` dataclass). -/
structure CollisionThreat where
  object_id : ℕ
  object_class : String
  distance : ℚ
  relative_velocity : ℚ
  ttc : WithTop ℚ
  lateral_offset : ℚ
  warning_level : WarningLevel
  warning_type : WarningType
  confidence : ℚ
deriving DecidableEq

/-- Current warning system state (`WarningState` dataclass). -/
structure WarningState where
  timestamp : ℚ
  active_threats : List CollisionThreat
  highest_level : WarningLevel
  primary_threat : Option CollisionThreat
  warning_message : String
  audio_alert : Bool
  brake_assist_triggered : Bool
deriving DecidableEq

/-- A detected object, i.e. the dict consumed by `CollisionWarning.analyze`
after `obj.get` defaulting: id, class, distance, bbox `(x1, y1, x2, y2)`,
confidence. -/
structure Detection where
  object_id : ℕ
  object_class : String
  distance : ℚ
  bbox : ℚ × ℚ × ℚ × ℚ
  confidence : ℚ
deriving DecidableEq

namespace CollisionWarning

/-- TTC threshold (s) for CRITICAL severity. -/
def TTC_CRITICAL : ℚ := 1

/-- TTC threshold (s) for DANGER severity. -/
def TTC_DANGER : ℚ := 2

/-- TTC threshold (s) for WARNING severity. -/
def TTC_WARNING : ℚ := 7/2

/-- TTC threshold (s) for INFO severity. -/
def TTC_INFO : ℚ := 5

/-- Distance threshold (m) for the DANGER fallback tier. -/
def DIST_CRITICAL : ℚ := 3

/-- Distance threshold (m) for the WARNING fallback tier. -/
def DIST_DANGER : ℚ := 8

/-- Distance threshold (m) for the INFO fallback tier. -/
def DIST_WARNING : ℚ := 15

/-- Maximum distance (m) at which an object is evaluated at all. -/
def DIST_SAFE : ℚ := 30

/-- Lateral threshold (m) for forward collision. -/
def LATERAL_THRESHOLD : ℚ := 2

/-- Tracking-history sliding window length (s), `self.history_window`. -/
def history_window : ℚ := 1

/-- One tracked sample: `(timestamp, distance, lateral)`. -/
abbrev Sample := ℚ × ℚ × ℚ

/-- Mutable state of a `CollisionWarning` instance: ego velocity, the
confidence gate, the audio flag, and the per-object tracking history
(`self.object_history`, a dict modelled as an association list). -/
structure CWState where
  ego_velocity : ℚ
  min_confidence : ℚ
  enable_audio : Bool
  object_history : List (ℕ × List Sample)
deriving DecidableEq

/-- Look a track up in the history dict (`self.object_history.get(id, [])`). -/
def historyGet (h : List (ℕ × List Sample)) (object_id : ℕ) : List Sample :=
  match h.find? (fun p => p.1 = object_id) with
  | some p => p.2
  | none => []

/-- Replace (or create) a track in the history dict. -/
def historySet (h : List (ℕ × List Sample)) (object_id : ℕ)
    (track : List Sample) : List (ℕ × List Sample) :=
  if h.any (fun p => p.1 = object_id) then
    h.map (fun p => if p.1 = object_id then (object_id, track) else p)
  else
    h ++ [(object_id, track)]

/-- `CollisionWarning._update_history`: append the new sample to the track
and prune samples at or before `timestamp - history_window`. -/
def update_history (h : List (ℕ × List Sample)) (object_id : ℕ)
    (timestamp distance lateral : ℚ) : List (ℕ × List Sample) :=
  let track := historyGet h object_id ++ [(timestamp, distance, lateral)]
  let cutoff := timestamp - history_window
  historySet h object_id (track.filter (fun s => cutoff < s.1))

/-- `CollisionWarning._estimate_velocity`: secant slope between the first and
last retained samples; `0` when fewer than two samples or `dt < 0.01`. -/
def estimate_velocity (h : List (ℕ × List Sample)) (object_id : ℕ) : ℚ :=
  let track := historyGet h object_id
  if track.length < 2 then 0
  else
    match track.head?, track.getLast? with
    | some s1, some s2 =>
      let dt := s2.1 - s1.1
      if dt < 1/100 then 0 else (s2.2.1 - s1.2.1) / dt
    | _, _ => 0

/-- Closing velocity, the quantity `ego_velocity - relative_velocity`
computed inside `CollisionWarning._calculate_ttc`. -/
def closing_velocity (ego_velocity relative_velocity : ℚ) : ℚ :=
  ego_velocity - relative_velocity

/-- `CollisionWarning._calculate_ttc`: `+infinity` when the closing velocity
is nonpositive, else `max(0, distance / closing_velocity)`. -/
def calculate_ttc (ego_velocity distance relative_velocity : ℚ) : WithTop ℚ :=
  if closing_velocity ego_velocity relative_velocity ≤ 0 then ⊤
  else ((max 0 (distance / closing_velocity ego_velocity relative_velocity)
    : ℚ) : WithTop ℚ)

/-- `CollisionWarning._determine_warning_level`: off-path early exit for
`|lateral_offset| > 2`, then the TTC tiers, then the distance fallback.
(The `priority` local of the source reads `class_priority` from
`object_class` but is never used afterwards, so the class does not affect
the result.) -/
def determine_warning_level (distance : ℚ) (ttc : WithTop ℚ)
    (lateral_offset : ℚ) (object_class : String) : WarningLevel :=
  if LATERAL_THRESHOLD < |lateral_offset| then
    if distance < DIST_WARNING then .INFO else .NONE
  else if ttc < (TTC_CRITICAL : WithTop ℚ) then .CRITICAL
  else if ttc < (TTC_DANGER : WithTop ℚ) then .DANGER
  else if ttc < (TTC_WARNING : WithTop ℚ) then .WARNING
  else if ttc < (TTC_INFO : WithTop ℚ) then .INFO
  else if distance < DIST_CRITICAL then .DANGER
  else if distance < DIST_DANGER then .WARNING
  else if distance < DIST_WARNING then .INFO
  else .NONE

/-- `CollisionWarning._determine_warning_type`. -/
def determine_warning_type (object_class : String)
    (lateral_offset : ℚ) : WarningType :=
  if object_class = "person" then .PEDESTRIAN
  else if object_class = "bicycle" ∨ object_class = "motorcycle" then .CYCLIST
  else if (3/2 : ℚ) < |lateral_offset| then .SIDE_COLLISION
  else .FORWARD_COLLISION

/-- Base message for a severity (`messages` dict in
`_generate_warning_message`; emoji stripped, empty for NONE as with
`messages.get(level, "")`). -/
def base_message : WarningLevel → String
  | .CRITICAL => "BRAKE NOW!"
  | .DANGER => "Collision risk!"
  | .WARNING => "Caution ahead"
  | .INFO => "Object detected"
  | .NONE => ""

/-- `CollisionWarning._generate_warning_message`: branching structure of the
source; the formatted distance/TTC tail and `.title()` casing are
presentational and not numerically modelled. -/
def generate_warning_message (threat : CollisionThreat) : String :=
  let target :=
    if threat.warning_type = .PEDESTRIAN then "Pedestrian"
    else if threat.warning_type = .CYCLIST then "Cyclist"
    else threat.object_class
  base_message threat.warning_level ++ " " ++ target

/-- `CollisionWarning._evaluate_threat` for one detection: the distance
gate, lateral-offset computation from the bbox, the history update, velocity
estimation, TTC and classification.  Returns the updated history together
with the optional threat. -/
def evaluate_threat (s : CWState) (obj : Detection) (frame_width : ℚ)
    (timestamp : ℚ) : List (ℕ × List Sample) × Option CollisionThreat :=
  if obj.distance ≤ 0 ∨ DIST_SAFE < obj.distance then
    (s.object_history, none)
  else
    let x1 := obj.bbox.1
    let x2 := obj.bbox.2.2.1
    let center_x := (x1 + x2) / 2
    let lateral_offset := (center_x - frame_width / 2) / (frame_width / 2) * 3
    let h := update_history s.object_history obj.object_id timestamp
      obj.distance lateral_offset
    let relative_velocity := estimate_velocity h obj.object_id
    let ttc := calculate_ttc s.ego_velocity obj.distance relative_velocity
    let warning_level :=
      determine_warning_level obj.distance ttc lateral_offset obj.object_class
    let warning_type := determine_warning_type obj.object_class lateral_offset
    (h, some
      { object_id := obj.object_id
        object_class := obj.object_class
        distance := obj.distance
        relative_velocity := relative_velocity
        ttc := ttc
        lateral_offset := lateral_offset
        warning_level := warning_level
        warning_type := warning_type
        confidence := obj.confidence })

/-- Sort key order on threats: ascending lexicographic by `(ttc, distance)`,
mirroring `threats.sort(key=lambda t: (t.ttc, t.distance))`. -/
def threatLe (a b : CollisionThreat) : Prop :=
  a.ttc < b.ttc ∨ (a.ttc = b.ttc ∧ a.distance ≤ b.distance)

instance : DecidableRel threatLe := fun a b => by
  unfold threatLe
  infer_instance

/-- The filter-and-evaluate loop of `CollisionWarning.analyze`: drop
detections below `min_confidence`, evaluate the rest in order, keep threats
with severity other than NONE, threading the history through. -/
def collectThreats (s : CWState) (objs : List Detection) (frame_width : ℚ)
    (timestamp : ℚ) : List (ℕ × List Sample) × List CollisionThreat :=
  match objs with
  | [] => (s.object_history, [])
  | obj :: rest =>
    if obj.confidence < s.min_confidence then
      collectThreats s rest frame_width timestamp
    else
      let (h, t?) := evaluate_threat s obj frame_width timestamp
      let (h', ts) :=
        collectThreats { s with object_history := h } rest frame_width timestamp
      match t? with
      | some t =>
        if t.warning_level ≠ WarningLevel.NONE then (h', t :: ts) else (h', ts)
      | none => (h', ts)

/-- The `if threats:` tail of `CollisionWarning.analyze` (lines 171–184).
`highest_level` is computed as `max(t.warning_level for t in threats)`, but
`WarningLevel` is a plain `enum.Enum` which supports no ordering: Python's
`max` returns the sole element of a singleton without comparing, and on two
or more threats raises `TypeError` — the whole call then returns nothing,
modelled here as `Except.error`.  With no threat the default state is
returned. -/
def buildState (enable_audio : Bool) (timestamp : ℚ)
    (threats : List CollisionThreat) : Except String WarningState :=
  match threats with
  | [] =>
    .ok { timestamp := timestamp
          active_threats := []
          highest_level := .NONE
          primary_threat := none
          warning_message := ""
          audio_alert := false
          brake_assist_triggered := false }
  | [t0] =>
    .ok { timestamp := timestamp
          active_threats := [t0]
          highest_level := t0.warning_level
          primary_threat := some t0
          warning_message := generate_warning_message t0
          audio_alert := enable_audio ∧
            WarningLevel.WARNING.value ≤ t0.warning_level.value
          brake_assist_triggered := t0.warning_level = .CRITICAL }
  | _ :: _ :: _ => .error "TypeError: WarningLevel members are not ordered"

/-- `CollisionWarning.analyze`: evaluate every detection, sort the threats
ascending by `(ttc, distance)`, and build the `WarningState`.  Returns the
updated engine state (the history mutations persist even when the
`highest_level` aggregation raises) together with either the
`WarningState` or the `TypeError` raised at line 176 when two or more
threats were collected. -/
def analyze (s : CWState) (objs : List Detection) (frame_width : ℚ)
    (timestamp : ℚ) : CWState × Except String WarningState :=
  let hraw := collectThreats s objs frame_width timestamp
  ({ s with object_history := hraw.1 },
   buildState s.enable_audio timestamp (List.insertionSort threatLe hraw.2))

/-- `CollisionWarning.update_ego_velocity`: clamp to nonnegative. -/
def update_ego_velocity (s : CWState) (velocity : ℚ) : CWState :=
  { s with ego_velocity := max 0 velocity }

end CollisionWarning

/-- `np.clip(x, lo, hi)`. -/
def clip (x lo hi : ℚ) : ℚ := min (max x lo) hi

namespace DistanceEstimator

/-- `DistanceEstimator._depth_to_distance`: the sentinel max distance
`100` for `depth < 0.01`, else `min(depth_scale / depth, 100)`. -/
def depth_to_distance (depth_scale depth : ℚ) : ℚ :=
  if depth < 1/100 then 100 else min (depth_scale / depth) 100

/-- `DistanceEstimator.calibrate_from_known_distance`: recomputes
`depth_scale = actual_distance * depth_value` when `depth_value > 0.01`,
and otherwise does nothing (the `if` has no `else`); returns the
`depth_scale` after the call. -/
def calibrate_from_known_distance (depth_scale depth_value
    actual_distance : ℚ) : ℚ :=
  if 1/100 < depth_value then actual_distance * depth_value else depth_scale

/-- The conversion law as the spec phrases it:
`clamp(depth_scale/d, 0, max_distance)` with `max_distance = 100`. -/
def specClampDistance (depth_scale depth : ℚ) : ℚ :=
  clip (depth_scale / depth) 0 100

end DistanceEstimator

/-- Lane departure status (`LaneDepartureStatus` enum, lane_keeping.py). -/
inductive LaneDepartureStatus
  | CENTERED
  | DRIFTING_LEFT
  | DRIFTING_RIGHT
  | DEPARTED_LEFT
  | DEPARTED_RIGHT
  | NO_LANE
deriving DecidableEq, Fintype

namespace LaneKeeping

/-- A degree-2 polynomial `x = a·y² + b·y + c` as coefficient triple
`(a, b, c)`, highest degree first as returned by `np.polyfit`. -/
abbrev Poly := ℚ × ℚ × ℚ

/-- `np.polyval(poly, y)` for a degree-2 coefficient triple. -/
def polyval (p : Poly) (y : ℚ) : ℚ := p.1 * y ^ 2 + p.2.1 * y + p.2.2

/-- Center offset threshold (m) for the drifting states. -/
def DRIFT_THRESHOLD : ℚ := 3/10

/-- Center offset threshold (m) for the departed states. -/
def DEPARTURE_THRESHOLD : ℚ := 7/10

/-- Assumed lane width (m) when only one side is visible. -/
def DEFAULT_LANE_WIDTH : ℚ := 7/2

/-- Pixels per meter at the bottom of the image (`self.ppm_bottom`). -/
def ppm_bottom : ℚ := 100

/-- Width of the warped bird's-eye canvas (`self.warped_size[0]`). -/
def warped_width : ℚ := 400

/-- Height of the warped bird's-eye canvas (`self.warped_size[1]`). -/
def warped_height : ℚ := 600

/-- Current lane detection state (`LaneState` dataclass).  Defaults as in
the dataclass: width `3.5`, offset `0`, curvature `+infinity`, heading `0`,
`NO_LANE`, confidence `0`, steering `0`. -/
structure LaneState where
  left_poly : Option Poly := none
  right_poly : Option Poly := none
  center_poly : Option Poly := none
  road_width : ℚ := 7/2
  center_offset : ℚ := 0
  curvature_radius : WithTop ℚ := ⊤
  heading_angle : ℚ := 0
  departure_status : LaneDepartureStatus := .NO_LANE
  confidence : ℚ := 0
  suggested_steering : ℚ := 0
deriving DecidableEq

/-- Mutable state of a `LaneKeeping` instance that the per-frame core
reads: smoothing flag, history depth (default 7), and the per-side lane
polynomial histories. -/
structure LKState where
  history_size : ℕ := 7
  enable_smoothing : Bool := true
  left_history : List Poly := []
  right_history : List Poly := []
deriving DecidableEq

/-- The two transcendental maps the metric step needs; kept as parameters
because `float ** 1.5` and `np.arctan` have no exact rational counterpart.
`pow32 x` stands for `x ** 1.5` and `atanDeg x` for `arctan(x)·180/π`. -/
structure RealFns where
  pow32 : ℚ → ℚ
  atanDeg : ℚ → ℚ

/-- Determinant of a 3×3 matrix given by rows. -/
def det3 (a b c d e f g h i : ℚ) : ℚ :=
  a * (e * i - f * h) - b * (d * i - f * g) + c * (d * h - e * g)

/-- Least-squares degree-2 fit of `x` as a polynomial in `y`
(`np.polyfit(y, x, 2)`), via the normal equations solved by Cramer's rule;
a singular system is the caught fit-failure path and yields `none`. -/
def polyfit (pixels : List (ℚ × ℚ)) : Option Poly :=
  let n : ℚ := pixels.length
  let s1 := (pixels.map (fun p => p.2)).sum
  let s2 := (pixels.map (fun p => p.2 ^ 2)).sum
  let s3 := (pixels.map (fun p => p.2 ^ 3)).sum
  let s4 := (pixels.map (fun p => p.2 ^ 4)).sum
  let t0 := (pixels.map (fun p => p.1)).sum
  let t1 := (pixels.map (fun p => p.1 * p.2)).sum
  let t2 := (pixels.map (fun p => p.1 * p.2 ^ 2)).sum
  let det := det3 s4 s3 s2 s3 s2 s1 s2 s1 n
  if det = 0 then none
  else some
    (det3 t2 s3 s2 t1 s2 s1 t0 s1 n / det,
     det3 s4 t2 s2 s3 t1 s1 s2 t0 n / det,
     det3 s4 s3 t2 s3 s2 t1 s2 s1 t0 / det)

/-- `LaneKeeping._fit_polynomial`: `none` for fewer than 10 pixels, else
the least-squares fit (`none` again on a caught fit failure). -/
def fit_polynomial (pixels : List (ℚ × ℚ)) : Option Poly :=
  if pixels.length < 10 then none else polyfit pixels

/-- The per-side fit actually performed by `LaneKeeping.detect`
(lines 125–126): `_fit_polynomial` is called only when the side's
sliding-window search matched more than 100 pixels, else the side is
`None` for the frame. -/
def rawFit (pixels : List (ℚ × ℚ)) : Option Poly :=
  if 100 < pixels.length then fit_polynomial pixels else none

/-- Componentwise mean of a history of polynomials
(`np.mean(history, axis=0)`). -/
def meanPoly (h : List Poly) : Poly :=
  let n : ℚ := h.length
  ((h.map (fun p => p.1)).sum / n,
   (h.map (fun p => p.2.1)).sum / n,
   (h.map (fun p => p.2.2)).sum / n)

/-- `LaneKeeping._smooth_lane`: push the frame's fit (when present) into
the history, drop the oldest entry past `history_size`, and report the
mean of the retained history (`none` on empty history).  Returns the
updated history together with the smoothed polynomial. -/
def smooth_lane (poly : Option Poly) (history : List Poly)
    (history_size : ℕ) : List Poly × Option Poly :=
  let h1 := match poly with
    | some p => history ++ [p]
    | none => history
  let h2 := if history_size < h1.length then h1.drop 1 else h1
  (h2, match h2 with
    | [] => none
    | _ => some (meanPoly h2))

/-- `LaneKeeping._compute_curvature`: radius from the first and second
derivatives at `y_eval`, `+infinity` for a near-zero second derivative,
scaled by `ppm_bottom` and capped at 10000 m. -/
def compute_curvature (F : RealFns) (poly : Poly) (y_eval : ℚ) : WithTop ℚ :=
  let d1 := 2 * poly.1 * y_eval + poly.2.1
  let d2 := 2 * poly.1
  if |d2| < 1/1000000 then ⊤
  else
    let curvature := F.pow32 (1 + d1 ^ 2) / |d2|
    ((min (curvature / ppm_bottom) 10000 : ℚ) : WithTop ℚ)

/-- `LaneKeeping._compute_heading`: heading angle in degrees from the
slope at `y_eval`. -/
def compute_heading (F : RealFns) (poly : Poly) (y_eval : ℚ) : ℚ :=
  F.atanDeg (2 * poly.1 * y_eval + poly.2.1)

/-- `LaneKeeping._compute_steering`: proportional controller on offset and
heading, clamped to `[-45, 45]`. -/
def compute_steering (center_offset heading_angle : ℚ) : ℚ :=
  clip (2 * center_offset + heading_angle / 2) (-45) 45

/-- `LaneKeeping._compute_metrics`: confidence from the present sides,
positions evaluated at the canvas bottom row, the two-sided and the two
single-sided center-offset branches, departure classification and the
steering suggestion. -/
def compute_metrics (F : RealFns) (left_poly right_poly : Option Poly)
    (img_width img_height : ℚ) : LaneState :=
  let confidence : ℚ :=
    (if left_poly.isSome then 1/2 else 0) +
    (if right_poly.isSome then 1/2 else 0)
  if confidence = 0 then
    { left_poly := left_poly
      right_poly := right_poly
      departure_status := .NO_LANE
      confidence := 0 }
  else
    let y_eval := warped_height - 1
    let partial_state : LaneState :=
      match left_poly, right_poly with
      | some l, some r =>
        let left_x := polyval l y_eval
        let right_x := polyval r y_eval
        let lane_center := (left_x + right_x) / 2
        let img_center := warped_width / 2
        let lane_width_px := right_x - left_x
        let center_p : Poly :=
          ((l.1 + r.1) / 2, (l.2.1 + r.2.1) / 2, (l.2.2 + r.2.2) / 2)
        let base : LaneState :=
          { left_poly := left_poly
            right_poly := right_poly
            center_poly := some center_p
            curvature_radius := compute_curvature F center_p y_eval
            heading_angle := compute_heading F center_p y_eval
            confidence := confidence }
        if 50 < lane_width_px then
          let meters_per_pixel := DEFAULT_LANE_WIDTH / lane_width_px
          { base with
              center_offset := (img_center - lane_center) * meters_per_pixel
              road_width := lane_width_px * meters_per_pixel }
        else base
      | some l, none =>
        let left_x := polyval l y_eval
        let estimated_center := left_x + ppm_bottom * DEFAULT_LANE_WIDTH / 2
        { left_poly := left_poly
          right_poly := right_poly
          center_offset := (warped_width / 2 - estimated_center) / ppm_bottom
          confidence := confidence }
      | none, some r =>
        let right_x := polyval r y_eval
        let estimated_center := right_x - ppm_bottom * DEFAULT_LANE_WIDTH / 2
        { left_poly := left_poly
          right_poly := right_poly
          center_offset := (warped_width / 2 - estimated_center) / ppm_bottom
          confidence := confidence }
      | none, none =>
        { left_poly := left_poly
          right_poly := right_poly
          confidence := confidence }
    let status :=
      if DEPARTURE_THRESHOLD < |partial_state.center_offset| then
        if 0 < partial_state.center_offset then
          LaneDepartureStatus.DEPARTED_RIGHT
        else LaneDepartureStatus.DEPARTED_LEFT
      else if DRIFT_THRESHOLD < |partial_state.center_offset| then
        if 0 < partial_state.center_offset then
          LaneDepartureStatus.DRIFTING_RIGHT
        else LaneDepartureStatus.DRIFTING_LEFT
      else LaneDepartureStatus.CENTERED
    { partial_state with
        departure_status := status
        suggested_steering :=
          compute_steering partial_state.center_offset
            partial_state.heading_angle }

/-- The per-frame core of `LaneKeeping.detect` from the matched lane
pixels onward (lines 124–136): the per-side `>100`-pixel fit gate,
optional temporal smoothing, and the metric computation.  Returns the
updated engine state (histories) together with the `LaneState`. -/
def detectCore (F : RealFns) (st : LKState)
    (left_pixels right_pixels : List (ℚ × ℚ))
    (img_width img_height : ℚ) : LKState × LaneState :=
  let ls :=
    if st.enable_smoothing then
      smooth_lane (rawFit left_pixels) st.left_history st.history_size
    else (st.left_history, rawFit left_pixels)
  let rs :=
    if st.enable_smoothing then
      smooth_lane (rawFit right_pixels) st.right_history st.history_size
    else (st.right_history, rawFit right_pixels)
  ({ st with left_history := ls.1, right_history := rs.1 },
   compute_metrics F ls.2 rs.2 img_width img_height)

end LaneKeeping

namespace DepthADASService

/-- State of `DepthADASService` relevant to ego velocity: its own copy and
the wrapped collision-warning engine. -/
structure ServiceState where
  ego_velocity : ℚ
  collision_warning : CollisionWarning.CWState
deriving DecidableEq

/-- `DepthADASService.update_ego_velocity`: clamps its own copy to
nonnegative and forwards the raw value to
`CollisionWarning.update_ego_velocity`. -/
def update_ego_velocity (s : ServiceState) (velocity : ℚ) : ServiceState :=
  { ego_velocity := max 0 velocity
    collision_warning :=
      CollisionWarning.update_ego_velocity s.collision_warning velocity }

end DepthADASService

/-! ## Helper lemmas -/

namespace CollisionWarning

theorem threatLe_total : ∀ a b : CollisionThreat, threatLe a b ∨ threatLe b a := by
  intro a b
  rcases lt_trichotomy a.ttc b.ttc with h | h | h
  · exact Or.inl (Or.inl h)
  · rcases le_total a.distance b.distance with hd | hd
    · exact Or.inl (Or.inr ⟨h, hd⟩)
    · exact Or.inr (Or.inr ⟨h.symm, hd⟩)
  · exact Or.inr (Or.inl h)

theorem threatLe_trans : ∀ a b c : CollisionThreat,
    threatLe a b → threatLe b c → threatLe a c := by
  intro a b c hab hbc
  rcases hab with h1 | ⟨e1, d1⟩
  · rcases hbc with h2 | ⟨e2, _⟩
    · exact Or.inl (h1.trans h2)
    · exact Or.inl (e2 ▸ h1)
  · rcases hbc with h2 | ⟨e2, d2⟩
    · exact Or.inl (e1 ▸ h2)
    · exact Or.inr ⟨e1.trans e2, d1.trans d2⟩

instance : IsTotal CollisionThreat threatLe := ⟨threatLe_total⟩

instance : IsTrans CollisionThreat threatLe := ⟨threatLe_trans⟩

end CollisionWarning

/-! ## Claim theorems -/

open CollisionWarning DistanceEstimator LaneKeeping in
/-- C3: the depth-to-distance conversion returns the max distance `100` for
`d < 0.01`, and `min(depth_scale / d, 100)` otherwise; and for `0.01 ≤ d ≤ 1`
with `depth_scale > 0` this equals `clamp(depth_scale / d, 0, 100)`. -/
theorem depth_to_distance_contract (depth_scale d : ℚ) :
    (d < 1/100 → depth_to_distance depth_scale d = 100) ∧
    (1/100 ≤ d → depth_to_distance depth_scale d =
      min (depth_scale / d) 100) ∧
    (0 < depth_scale → 1/100 ≤ d → d ≤ 1 →
      depth_to_distance depth_scale d = specClampDistance depth_scale d) := by
  refine ⟨fun h => ?_, fun h => ?_, fun hs hd _ => ?_⟩
  · rw [depth_to_distance, if_pos h]
  · rw [depth_to_distance, if_neg (not_lt.mpr h)]
  · have hdpos : (0 : ℚ) < d := lt_of_lt_of_le (by norm_num) hd
    have hq : (0 : ℚ) ≤ depth_scale / d := le_of_lt (div_pos hs hdpos)
    rw [depth_to_distance, if_neg (not_lt.mpr hd), specClampDistance, clip,
      max_eq_left hq]

open CollisionWarning DistanceEstimator in
/-- C3 witness: concrete evaluations of the conversion contract. -/
theorem depth_to_distance_contract_witness :
    depth_to_distance 10 (1/200) = 100 ∧ depth_to_distance 10 (1/2) = 20 ∧
    depth_to_distance 10 (1/2) = specClampDistance 10 (1/2) := by
  refine ⟨(depth_to_distance_contract 10 (1/200)).1 (by norm_num), ?_, ?_⟩
  · rw [(depth_to_distance_contract 10 (1/2)).2.1 (by norm_num)]
    norm_num
  · exact (depth_to_distance_contract 10 (1/2)).2.2 (by norm_num)
      (by norm_num) (by norm_num)

open DistanceEstimator in
/-- C8 (code bug): for a depth value at or below `0.01`,
`calibrate_from_known_distance` is a silent no-op — `depth_scale` is left
unchanged and no error of any kind is produced — while a valid depth value
recomputes `depth_scale = actual_distance * depth_value`.  Shown at the
failing input `depth_value = 1/200`, `actual_distance = 50`, prior
`depth_scale = 10`. -/
theorem calibrate_low_depth_silent_noop :
    calibrate_from_known_distance 10 (1/200) 50 = 10 ∧
    calibrate_from_known_distance 10 (1/2) 50 = 25 := by
  constructor <;> norm_num [calibrate_from_known_distance]

open CollisionWarning in
/-- C2: any evaluated detection with `|lateral offset| > 2` gets severity
`INFO` when `distance < 15` and `NONE` otherwise, for every TTC and object
class; in particular never `WARNING`, `DANGER` or `CRITICAL`. -/
theorem offpath_severity_capped (distance : ℚ) (ttc : WithTop ℚ)
    (lateral_offset : ℚ) (object_class : String)
    (h : 2 < |lateral_offset|) :
    determine_warning_level distance ttc lateral_offset object_class =
      (if distance < 15 then WarningLevel.INFO else WarningLevel.NONE) ∧
    determine_warning_level distance ttc lateral_offset object_class ≠
      WarningLevel.WARNING ∧
    determine_warning_level distance ttc lateral_offset object_class ≠
      WarningLevel.DANGER ∧
    determine_warning_level distance ttc lateral_offset object_class ≠
      WarningLevel.CRITICAL := by
  have h2 : LATERAL_THRESHOLD < |lateral_offset| := h
  rw [determine_warning_level, if_pos h2]
  refine ⟨?_, ?_⟩
  · rfl
  · unfold DIST_WARNING
    split <;> simp

open CollisionWarning in
/-- C2 witness: an off-path detection at 10 m with TTC `0.5 s` (inside the
CRITICAL tier) still gets only `INFO`. -/
theorem offpath_severity_capped_witness :
    determine_warning_level 10 ((1/2 : ℚ) : WithTop ℚ) 3 "car" =
      WarningLevel.INFO ∧
    determine_warning_level 10 ((1/2 : ℚ) : WithTop ℚ) 3 "car" ≠
      WarningLevel.CRITICAL := by
  have h := offpath_severity_capped 10 ((1/2 : ℚ) : WithTop ℚ) 3 "car"
    (by norm_num)
  refine ⟨?_, h.2.2.2⟩
  rw [h.1, if_pos (by norm_num)]

open CollisionWarning in
/-- C4 counterexample: at distance `-1` with closing velocity `10 > 0` the
TTC computation returns `0`, not `distance / closing_velocity = -1/10` —
the source applies `max(0, ttc)`, which the claim omits. -/
theorem calculate_ttc_negative_distance_counterexample :
    closing_velocity 10 0 = 10 ∧ (0 : ℚ) < closing_velocity 10 0 ∧
    calculate_ttc 10 (-1) 0 = ((0 : ℚ) : WithTop ℚ) ∧
    (-1 : ℚ) / closing_velocity 10 0 = -1/10 ∧
    ((0 : ℚ) : WithTop ℚ) ≠ ((-1/10 : ℚ) : WithTop ℚ) := by
  refine ⟨by norm_num [closing_velocity], by norm_num [closing_velocity], ?_,
    by norm_num [closing_velocity], by simp⟩
  rw [calculate_ttc, if_neg (by norm_num [closing_velocity])]
  norm_num [closing_velocity]

open CollisionWarning in
/-- C4 (amended): the TTC computation sets
`closing_velocity = ego_velocity - relative_velocity`, returns `+infinity`
when the closing velocity is nonpositive and `max(0, distance /
closing_velocity)` when it is positive (which equals
`distance / closing_velocity` for nonnegative distance); for any fixed
positive distance, TTC is monotonically non-increasing in the closing
velocity. -/
theorem calculate_ttc_contract_and_monotone (ego d rv : ℚ) :
    closing_velocity ego rv = ego - rv ∧
    (closing_velocity ego rv ≤ 0 → calculate_ttc ego d rv = ⊤) ∧
    (0 < closing_velocity ego rv → calculate_ttc ego d rv =
      ((max 0 (d / closing_velocity ego rv) : ℚ) : WithTop ℚ)) ∧
    (0 ≤ d → 0 < closing_velocity ego rv → calculate_ttc ego d rv =
      ((d / closing_velocity ego rv : ℚ) : WithTop ℚ)) ∧
    (0 < d → ∀ rv2 : ℚ, rv2 ≤ rv →
      calculate_ttc ego d rv2 ≤ calculate_ttc ego d rv) := by
  refine ⟨rfl, fun h => ?_, fun h => ?_, fun hd h => ?_, fun hd rv2 h2 => ?_⟩
  · rw [calculate_ttc, if_pos h]
  · rw [calculate_ttc, if_neg (not_le.mpr h)]
  · rw [calculate_ttc, if_neg (not_le.mpr h),
      max_eq_right (div_nonneg hd h.le)]
  · rcases le_or_lt (closing_velocity ego rv) 0 with h | h
    · have htop : calculate_ttc ego d rv = ⊤ := by
        rw [calculate_ttc, if_pos h]
      rw [htop]
      exact le_top
    · have hcv2 : closing_velocity ego rv ≤ closing_velocity ego rv2 := by
        unfold closing_velocity
        linarith
      have h2pos : 0 < closing_velocity ego rv2 := lt_of_lt_of_le h hcv2
      simp only [calculate_ttc]
      rw [if_neg (not_le.mpr h2pos), if_neg (not_le.mpr h)]
      have hdiv : d / closing_velocity ego rv2 ≤ d / closing_velocity ego rv :=
        div_le_div_of_nonneg_left hd.le h hcv2
      exact_mod_cast max_le_max le_rfl hdiv

open CollisionWarning in
/-- C4 witness: the contract evaluated at ego 15 m/s, distance 8 m —
`+infinity` for relative velocity 20 (closing `-5`), `0.8 s` for relative
velocity 5 (closing 10), and monotonicity between relative velocities 0
and 5. -/
theorem calculate_ttc_contract_witness :
    calculate_ttc 15 8 20 = ⊤ ∧
    calculate_ttc 15 8 5 = ((4/5 : ℚ) : WithTop ℚ) ∧
    calculate_ttc 15 8 0 ≤ calculate_ttc 15 8 5 := by
  refine ⟨(calculate_ttc_contract_and_monotone 15 8 20).2.1
    (by norm_num [closing_velocity]), ?_,
    (calculate_ttc_contract_and_monotone 15 8 5).2.2.2.2 (by norm_num) 0
      (by norm_num)⟩
  rw [(calculate_ttc_contract_and_monotone 15 8 5).2.2.2.1 (by norm_num)
    (by norm_num [closing_velocity])]
  norm_num [closing_velocity]

open CollisionWarning DepthADASService in
/-- C10: `update_ego_velocity v` stores exactly `max(0, v)` (both on the
engine and on the wrapping service, which forwards the raw value), so the
stored ego velocity is always nonnegative, and `analyze` leaves
`ego_velocity` unchanged. -/
theorem update_ego_velocity_clamps_and_analyze_preserves
    (s : CWState) (sv : ServiceState) (v : ℚ) :
    (update_ego_velocity s v).ego_velocity = max 0 v ∧
    0 ≤ (update_ego_velocity s v).ego_velocity ∧
    (DepthADASService.update_ego_velocity sv v).ego_velocity = max 0 v ∧
    (DepthADASService.update_ego_velocity sv
      v).collision_warning.ego_velocity = max 0 v ∧
    (∀ (objs : List Detection) (w t : ℚ),
      ((analyze s objs w t).1).ego_velocity = s.ego_velocity) := by
  exact ⟨rfl, le_max_left 0 v, rfl, rfl, fun objs w t => rfl⟩

namespace CollisionWarning

/-- Engine state for the C5 scenario: ego velocity 15 m/s, default gates,
and a track for object 1 whose secant slope over the last half second is
`+5 m/s` (distance `5.5 m` half a second ago). -/
def c5State : CWState := ⟨15, 1/2, true, [(1, [(1/2, 11/2, 0)])]⟩

/-- Detection for the C5 scenario: a `car` at 8 m, nearly centered bbox,
confidence 0.9. -/
def c5Obj : Detection := ⟨1, "car", 8, (300, 200, 400, 350), 9/10⟩

end CollisionWarning

open CollisionWarning in
set_option maxHeartbeats 1000000 in
/-- C5: with ego velocity 15 m/s, a `car` at 8 m with relative velocity
5 m/s has closing velocity 10 m/s, TTC `0.8 s`, and `analyze` returns
(no exception: a single threat means `max` never compares two enum
members) a `WarningState` with severity `CRITICAL` and brake assist
triggered. -/
theorem critical_car_scenario :
    closing_velocity 15 5 = 10 ∧
    calculate_ttc 15 8 5 = ((4/5 : ℚ) : WithTop ℚ) ∧
    ((analyze c5State [c5Obj] 640 1).2.map (fun ws => ws.highest_level)
      = Except.ok WarningLevel.CRITICAL) ∧
    ((analyze c5State [c5Obj] 640 1).2.map
      (fun ws => ws.brake_assist_triggered) = Except.ok true) ∧
    ((analyze c5State [c5Obj] 640 1).2.map
      (fun ws => ws.active_threats.map (fun t => t.ttc))
      = Except.ok [((4/5 : ℚ) : WithTop ℚ)]) ∧
    ((analyze c5State [c5Obj] 640 1).2.map
      (fun ws => ws.active_threats.map (fun t => t.relative_velocity))
      = Except.ok [5]) := by
  have habs : |(9/32 : ℚ)| = 9/32 := abs_of_nonneg (by norm_num)
  norm_num [c5State, c5Obj, analyze, collectThreats, evaluate_threat,
    update_history, historyGet, historySet, history_window, estimate_velocity,
    calculate_ttc, closing_velocity, determine_warning_level,
    determine_warning_type, TTC_CRITICAL, TTC_DANGER, TTC_WARNING, TTC_INFO,
    DIST_CRITICAL, DIST_DANGER, DIST_WARNING, DIST_SAFE, LATERAL_THRESHOLD,
    buildState, WarningLevel.value, Except.map,
    List.insertionSort, List.orderedInsert, threatLe, List.find?, habs,
    WithTop.coe_lt_coe]

namespace CollisionWarning

/-- Engine state for the C1 failing input: ego velocity 4 m/s and a track
for object 1 putting it at `0.5 m` half a second ago. -/
def c1State : CWState := ⟨4, 1/2, true, [(1, [(1/2, 1/2, 0)])]⟩

/-- C1 failing-input detection A: a centered `car` at `2.5 m`, receding at
4 m/s relative (equal to ego speed), so its TTC is `+infinity` and its
severity comes from the distance fallback (`DANGER`). -/
def c1ObjA : Detection := ⟨1, "car", 5/2, (300, 0, 340, 0), 1⟩

/-- C1 failing-input detection B: a centered `car` at 16 m, first
sighting, so relative velocity 0, TTC `4 s` and severity `INFO`.  Together
with A this makes two collected threats, so the `highest_level`
aggregation at line 176 compares two plain-Enum members and raises. -/
def c1ObjB : Detection := ⟨2, "car", 16, (300, 0, 340, 0), 1⟩

/-- Engine state for the single-threat part of C1: ego 10 m/s, empty
history. -/
def c1SingleState : CWState := ⟨10, 1/2, true, []⟩

/-- The single detection for the single-threat part of C1: a centered
`car` at 8 m (first sighting, so TTC `0.8 s`, `CRITICAL`). -/
def c1SingleObj : Detection := ⟨3, "car", 8, (300, 0, 340, 0), 1⟩

end CollisionWarning

open CollisionWarning in
set_option maxHeartbeats 1000000 in
/-- C1 (code bug): `WarningLevel` is a plain `enum.Enum` with no ordering,
so `max(t.warning_level for t in threats)` at collision_warning.py:176
raises `TypeError` whenever two or more threats are collected and
`analyze` returns no `WarningState` at all — the module's own `__main__`
test collects two threats and crashes this way.  Shown here: at a concrete
two-threat input the embedded `analyze` yields the error; at a one-threat
input it succeeds, the singleton `max` making the sole element's severity
the `highest_level`; and the threat list built at line 168 is always
sorted ascending by `(ttc, distance)`. -/
theorem analyze_two_threats_raise_type_error :
    ((analyze c1State [c1ObjA, c1ObjB] 640 1).2 =
      Except.error "TypeError: WarningLevel members are not ordered") ∧
    ((analyze c1SingleState [c1SingleObj] 640 1).2.map
      (fun ws => ws.active_threats.map (fun t => t.warning_level))
      = Except.ok [WarningLevel.CRITICAL]) ∧
    ((analyze c1SingleState [c1SingleObj] 640 1).2.map
      (fun ws => ws.highest_level) = Except.ok WarningLevel.CRITICAL) ∧
    (∀ (s : CWState) (objs : List Detection) (w t : ℚ),
      (List.insertionSort threatLe (collectThreats s objs w t).2).Sorted
        threatLe) := by
  refine ⟨?_, ?_, ?_, fun s objs w t => List.sorted_insertionSort threatLe _⟩
  · norm_num [c1State, c1ObjA, c1ObjB, analyze, collectThreats,
      evaluate_threat, update_history, historyGet, historySet,
      history_window, estimate_velocity, calculate_ttc, closing_velocity,
      determine_warning_level, determine_warning_type, TTC_CRITICAL,
      TTC_DANGER, TTC_WARNING, TTC_INFO, DIST_CRITICAL, DIST_DANGER,
      DIST_WARNING, DIST_SAFE, LATERAL_THRESHOLD, buildState,
      WarningLevel.value, List.insertionSort, List.orderedInsert, threatLe,
      List.find?, WithTop.coe_lt_coe, -WithTop.coe_ofNat, -WithTop.coe_one,
      -WithTop.coe_zero]
  · norm_num [c1SingleState, c1SingleObj, analyze, collectThreats,
      evaluate_threat, update_history, historyGet, historySet,
      history_window, estimate_velocity, calculate_ttc, closing_velocity,
      determine_warning_level, determine_warning_type, TTC_CRITICAL,
      TTC_DANGER, TTC_WARNING, TTC_INFO, DIST_CRITICAL, DIST_DANGER,
      DIST_WARNING, DIST_SAFE, LATERAL_THRESHOLD, buildState,
      WarningLevel.value, Except.map, List.insertionSort,
      List.orderedInsert, threatLe, List.find?, WithTop.coe_lt_coe,
      -WithTop.coe_ofNat, -WithTop.coe_one, -WithTop.coe_zero]
  · norm_num [c1SingleState, c1SingleObj, analyze, collectThreats,
      evaluate_threat, update_history, historyGet, historySet,
      history_window, estimate_velocity, calculate_ttc, closing_velocity,
      determine_warning_level, determine_warning_type, TTC_CRITICAL,
      TTC_DANGER, TTC_WARNING, TTC_INFO, DIST_CRITICAL, DIST_DANGER,
      DIST_WARNING, DIST_SAFE, LATERAL_THRESHOLD, buildState,
      WarningLevel.value, Except.map, List.insertionSort,
      List.orderedInsert, threatLe, List.find?, WithTop.coe_lt_coe,
      -WithTop.coe_ofNat, -WithTop.coe_one, -WithTop.coe_zero]

namespace LaneKeeping

theorem smooth_lane_none_of_nonempty (history : List Poly) (hs : ℕ)
    (hne : history ≠ []) (hlen : history.length ≤ hs) :
    smooth_lane none history hs = (history, some (meanPoly history)) := by
  rcases history with _ | ⟨p, t⟩
  · exact absurd rfl hne
  · rw [smooth_lane]
    simp only [if_neg (not_lt.mpr hlen)]

theorem compute_metrics_both_fields (F : RealFns) (l r : Poly) (w h : ℚ) :
    (compute_metrics F (some l) (some r) w h).left_poly = some l ∧
    (compute_metrics F (some l) (some r) w h).right_poly = some r ∧
    (compute_metrics F (some l) (some r) w h).confidence = 1 := by
  rw [compute_metrics]
  norm_num
  split_ifs <;> simp

/-- Half the default lane width converted to pixel space, as the spec
phrases the single-side estimate. -/
def specHalfLaneWidthPx : ℚ := DEFAULT_LANE_WIDTH * ppm_bottom / 2

/-- The spec's left-only center-offset formula: the estimated center is
`left_x` plus half the default lane width in pixels, and the offset is
`(canvas_width/2 - estimated_center) / pixels-per-meter`. -/
def specOnlyLeftOffset (left_x : ℚ) : ℚ :=
  (warped_width / 2 - (left_x + specHalfLaneWidthPx)) / ppm_bottom

/-- The spec's right-only center-offset formula, with the half lane width
subtracted. -/
def specOnlyRightOffset (right_x : ℚ) : ℚ :=
  (warped_width / 2 - (right_x - specHalfLaneWidthPx)) / ppm_bottom

end LaneKeeping

open LaneKeeping in
/-- C6 (amended): `detect` fits a side only when its sliding-window search
matched more than 100 pixels — any count of at most 100 (in particular any
count in `[10, 100]`) leaves that side's raw fit `None`; above 100 pixels
the least-squares fit is performed (total, a caught fit failure yields
`None` rather than an exception). -/
theorem rawFit_threshold (pixels : List (ℚ × ℚ)) :
    (pixels.length ≤ 100 → rawFit pixels = none) ∧
    (100 < pixels.length → rawFit pixels = polyfit pixels) := by
  constructor
  · intro h
    rw [rawFit, if_neg (not_lt.mpr h)]
  · intro h
    rw [rawFit, if_pos h, fit_polynomial, if_neg (by omega)]

open LaneKeeping in
/-- C6 witness: the gate evaluated at a 50-pixel and a 101-pixel side. -/
theorem rawFit_threshold_witness :
    rawFit (List.replicate 50 ((0 : ℚ), (0 : ℚ))) = none ∧
    rawFit (List.replicate 101 ((0 : ℚ), (0 : ℚ))) =
      polyfit (List.replicate 101 ((0 : ℚ), (0 : ℚ))) := by
  exact ⟨(rawFit_threshold _).1 (by simp),
    (rawFit_threshold _).2 (by simp)⟩

namespace LaneKeeping

/-- C6 counterexample input: 50 distinct matched pixels on a side. -/
def c6pixels : List (ℚ × ℚ) :=
  (List.range 50).map (fun (i : ℕ) => ((i : ℚ), (i : ℚ)))

end LaneKeeping

open LaneKeeping in
/-- C6 counterexample: a side with 50 matched pixels (well above the
claimed 10-pixel threshold) still gets no polynomial from `detect`, because
the gate in `detect` requires strictly more than 100 pixels. -/
theorem rawFit_fifty_pixels_counterexample :
    10 ≤ c6pixels.length ∧ rawFit c6pixels = none := by
  have hlen : c6pixels.length = 50 := by
    rw [c6pixels, List.length_map, List.length_range]
  refine ⟨by rw [hlen]; norm_num, ?_⟩
  rw [rawFit, if_neg]
  rw [hlen]
  norm_num

open LaneKeeping in
/-- C7: when only one lane polynomial is present, the estimated center is
the detected side's bottom-row position offset by exactly half the default
lane width (3.5 m) in pixel space — added for left-only, subtracted for
right-only — and `center_offset` is `(canvas_width/2 - estimated_center)`
divided by the pixels-per-meter factor. -/
theorem single_side_center_offset (F : RealFns) (l r : Poly) (w h : ℚ) :
    (compute_metrics F (some l) none w h).center_offset =
      specOnlyLeftOffset (polyval l (warped_height - 1)) ∧
    (compute_metrics F none (some r) w h).center_offset =
      specOnlyRightOffset (polyval r (warped_height - 1)) := by
  constructor <;>
    norm_num [compute_metrics, specOnlyLeftOffset, specOnlyRightOffset,
      specHalfLaneWidthPx, DEFAULT_LANE_WIDTH, ppm_bottom, warped_width,
      warped_height]

open LaneKeeping in
/-- C9: with smoothing enabled, a frame whose sides both lack enough pixels
to fit (at most 100 each) but whose histories are nonempty still reports
the mean of each retained history as that side's polynomial, keeps both
histories unchanged, and scores full confidence `1.0`. -/
theorem smoothing_fills_missing_side (F : RealFns) (st : LKState)
    (lp rp : List (ℚ × ℚ)) (w h : ℚ)
    (hsm : st.enable_smoothing = true)
    (hlp : lp.length ≤ 100) (hrp : rp.length ≤ 100)
    (hLne : st.left_history ≠ []) (hRne : st.right_history ≠ [])
    (hLlen : st.left_history.length ≤ st.history_size)
    (hRlen : st.right_history.length ≤ st.history_size) :
    (detectCore F st lp rp w h).2.left_poly =
      some (meanPoly st.left_history) ∧
    (detectCore F st lp rp w h).2.right_poly =
      some (meanPoly st.right_history) ∧
    (detectCore F st lp rp w h).2.confidence = 1 ∧
    (detectCore F st lp rp w h).1.left_history = st.left_history ∧
    (detectCore F st lp rp w h).1.right_history = st.right_history := by
  have hrawL : rawFit lp = none := by rw [rawFit, if_neg (not_lt.mpr hlp)]
  have hrawR : rawFit rp = none := by rw [rawFit, if_neg (not_lt.mpr hrp)]
  have hfst : (detectCore F st lp rp w h).1 = st := by
    simp only [detectCore, hsm, if_true, hrawL, hrawR,
      smooth_lane_none_of_nonempty st.left_history st.history_size hLne hLlen,
      smooth_lane_none_of_nonempty st.right_history st.history_size hRne hRlen]
    rw [← hsm]
  have hsnd : (detectCore F st lp rp w h).2 =
      compute_metrics F (some (meanPoly st.left_history))
        (some (meanPoly st.right_history)) w h := by
    simp only [detectCore, hsm, if_true, hrawL, hrawR,
      smooth_lane_none_of_nonempty st.left_history st.history_size hLne hLlen,
      smooth_lane_none_of_nonempty st.right_history st.history_size hRne hRlen]
  rw [hfst, hsnd]
  obtain ⟨h1, h2, h3⟩ := compute_metrics_both_fields F
    (meanPoly st.left_history) (meanPoly st.right_history) w h
  exact ⟨h1, h2, h3, rfl, rfl⟩

namespace LaneKeeping

/-- Concrete transcendental stand-ins for the C9 witness. -/
def zeroFns : RealFns := ⟨fun _ => 0, fun _ => 0⟩

/-- Engine state for the C9 witness: smoothing on, default history depth,
one retained polynomial per side. -/
def c9State : LKState := ⟨7, true, [(1, 2, 3)], [(4, 5, 6)]⟩

end LaneKeeping

open LaneKeeping in
/-- C9 witness: a frame with no matched pixels at all still reports both
sides from history with confidence `1.0`. -/
theorem smoothing_fills_missing_side_witness :
    (detectCore zeroFns c9State [] [] 640 480).2.left_poly =
      some (meanPoly [((1 : ℚ), (2 : ℚ), (3 : ℚ))]) ∧
    (detectCore zeroFns c9State [] [] 640 480).2.confidence = 1 ∧
    (detectCore zeroFns c9State [] [] 640 480).1.left_history =
      [((1 : ℚ), (2 : ℚ), (3 : ℚ))] := by
  obtain ⟨h1, _, h3, h4, _⟩ := smoothing_fills_missing_side zeroFns c9State
    [] [] 640 480 rfl (by simp) (by simp) (by simp [c9State])
    (by simp [c9State]) (by simp [c9State]) (by simp [c9State])
  exact ⟨h1, h3, h4⟩

end ADAS
